import Mathlib

/-!
Verification development for the libigl closest-facet resolver
(`include/igl/copyleft/cgal/closest_facet.cpp`) and the flag-assignment stage of
the ray-cast reorientation routine (`include/igl/embree/reorient_facets_raycast.cpp`).

The CGAL exact kernel is modelled by points with rational coordinates; the
orientation / collinearity predicates are the exact sign computations CGAL
performs on such coordinates.  The AABB tree (nearest point, segment
intersection) and `order_facets_around_edge` are external components consumed as
black boxes by the source, so they appear here as oracle function parameters
carried in the context structure.
-/

/-- A 3D point with exact rational coordinates, modelling `Kernel::Point_3`
of CGAL's exact-predicates-exact-constructions kernel. -/
structure Pt where
  px : ℚ
  py : ℚ
  pz : ℚ
deriving DecidableEq, Inhabited

/-- Componentwise difference of two points (as a vector). -/
def ptSub (a b : Pt) : Pt :=
  ⟨a.px - b.px, a.py - b.py, a.pz - b.pz⟩

/-- Cross product of two vectors. -/
def ptCross (u v : Pt) : Pt :=
  ⟨u.py * v.pz - u.pz * v.py, u.pz * v.px - u.px * v.pz, u.px * v.py - u.py * v.px⟩

/-- Determinant of the 3x3 matrix with rows `u`, `v`, `w`. -/
def det3 (u v w : Pt) : ℚ :=
  u.px * (v.py * w.pz - v.pz * w.py)
    - u.py * (v.px * w.pz - v.pz * w.px)
    + u.pz * (v.px * w.py - v.py * w.px)

/-- CGAL's `orientation(p, q, r, s)` as an exact rational value: positive iff
`s` is on the positive side of the plane through `p`, `q`, `r` (and also
`Plane_3(p, q, r).oriented_side(s)`). -/
def orient3d (p q r s : Pt) : ℚ :=
  det3 (ptSub q p) (ptSub r p) (ptSub s p)

/-- CGAL's exact `collinear(p, q, r)` test (also `Triangle_3::is_degenerate` and
`Plane_3::is_degenerate` for the triangle/plane spanned by the three points). -/
def collinear (p q r : Pt) : Bool :=
  decide (ptCross (ptSub q p) (ptSub r p) = Pt.mk 0 0 0)

/-- The edge midpoint `(a + b) * 0.5` computed in `process_edge_case`. -/
def midPt (a b : Pt) : Pt :=
  ⟨(a.px + b.px) / 2, (a.py + b.py) / 2, (a.pz + b.pz) / 2⟩

/-- A facet of the mesh: one row of `F`, a triple of vertex indices. -/
structure Facet where
  a : ℕ
  b : ℕ
  c : ℕ
deriving DecidableEq, Inhabited

/-- The error taxonomy of the resolver; each constructor corresponds to one
`throw` site (or failing assertion) of `closest_facet.cpp`. -/
inductive CFError where
  /-- "Closest facet cannot be computed on empty mesh." -/
  | emptyMesh
  /-- "Input facet components contains degenerated triangles" -/
  | degenerateTriangle
  /-- "It seems input mesh contains self intersection" (COPLANAR orientation) -/
  | selfIntersection
  /-- "Cannot compute orientation due to incorrect connectivity" -/
  | inconsistentConnectivity
  /-- "Input mesh contains degenerated faces" (degenerate separator plane) -/
  | degenerateFaces
  /-- The failed `assert(d != std::numeric_limits<size_t>::max())` at the end
  of `process_vertex_case` (no separating plane found). -/
  | unresolvedVertexCase
  /-- The failed `assert(num_intersected_faces >= 1)` in `process_edge_case`. -/
  | noIntersection
deriving DecidableEq

/-- Element classification of the closest point, `enum ElementType`. -/
inductive ElementType where
  | VERTEX
  | EDGE
  | FACE
deriving DecidableEq

/-- The data shared by the nested lambdas of `closest_facet`: the vertex table
`V`, the facet table `F`, the facet subset index `I`, and the three external
black boxes: `allIntersected a b` is `tree.all_intersected_primitives` on the
segment from `a` to `b` (returning local primitive ids), `closestPP` is
`tree.closest_point_and_primitive`, and `orderFacets s d signed pivot` is
`order_facets_around_edge` (returning positions into the signed-index list). -/
structure Ctx where
  V : Array Pt
  F : Array Facet
  I : Array ℕ
  allIntersected : Pt → Pt → List ℕ
  closestPP : Pt → Pt × ℕ
  orderFacets : ℕ → ℕ → List Int → Pt → List ℕ

/-- `V(i, *)` as a point. -/
def Ctx.vpt (ctx : Ctx) (i : ℕ) : Pt := ctx.V.getD i default

/-- `I(i, 0)`: translate a local primitive id to an original facet id. -/
def Ctx.orig (ctx : Ctx) (i : ℕ) : ℕ := ctx.I.getD i 0

/-- The lambda `on_the_positive_side(fid, p)`: the exact orientation of `p`
against facet `fid`'s supporting plane; COPLANAR is a fatal
self-intersection error. -/
def on_the_positive_side (V : Array Pt) (F : Array Facet) (fid : ℕ) (p : Pt) :
    Except CFError Bool :=
  let f := F.getD fid default
  let dv := orient3d (V.getD f.a default) (V.getD f.b default) (V.getD f.c default) p
  if 0 < dv then Except.ok true
  else if dv < 0 then Except.ok false
  else Except.error CFError.selfIntersection

/-- The lambda `get_orientation(fid, s, d)`: whether facet `fid`'s winding
traverses the edge as `(d, s)` (true) or `(s, d)` (false); if the edge is not
found in the facet the connectivity is inconsistent (fatal). -/
def get_orientation (F : Array Facet) (fid s d : ℕ) : Except CFError Bool :=
  let f := F.getD fid default
  if f.a = s ∧ f.b = d then Except.ok false
  else if f.b = s ∧ f.c = d then Except.ok false
  else if f.c = s ∧ f.a = d then Except.ok false
  else if f.a = d ∧ f.b = s then Except.ok true
  else if f.b = d ∧ f.c = s then Except.ok true
  else if f.c = d ∧ f.a = s then Except.ok true
  else Except.error CFError.inconsistentConnectivity

/-- The lambda `index_to_signed_index(index, ori) = (index+1) * (ori ? 1 : -1)`. -/
def index_to_signed_index (index : ℕ) (ori : Bool) : Int :=
  ((index : Int) + 1) * (if ori then 1 else -1)

/-- The lambda `determine_element_type(p, fid, element_index)`; `ofid` is the
original facet id `I(fid, 0)` of the owning primitive, so the corner points are
those of `triangles[fid]`. -/
def determine_element_type (V : Array Pt) (F : Array Facet) (p : Pt) (ofid : ℕ) :
    ElementType × ℕ :=
  let f := F.getD ofid default
  let p0 := V.getD f.a default
  let p1 := V.getD f.b default
  let p2 := V.getD f.c default
  if p = p0 then (ElementType.VERTEX, 0)
  else if p = p1 then (ElementType.VERTEX, 1)
  else if p = p2 then (ElementType.VERTEX, 2)
  else if collinear p0 p1 p then (ElementType.EDGE, 2)
  else if collinear p1 p2 p then (ElementType.EDGE, 0)
  else if collinear p2 p0 p then (ElementType.EDGE, 1)
  else (ElementType.FACE, 0)

/-- The original-mesh facet ids of the primitives intersected by the segment
from the edge midpoint of `(s, d)` to the query point (the two `std::transform`
steps of `process_edge_case` up to `I(itr - begin, 0)`). -/
def edgeIdxs (ctx : Ctx) (q : Pt) (s d : ℕ) : List ℕ :=
  (ctx.allIntersected (midPt (ctx.vpt s) (ctx.vpt d)) q).map ctx.orig

/-- The `intersected_face_signed_indices` transform: signed index of every
intersected facet for the directed edge `(s, d)`, computed in list order; an
inconsistent facet aborts the whole transform. -/
def signedIndices (F : Array Facet) (s d : ℕ) : List ℕ → Except CFError (List Int)
  | [] => Except.ok []
  | index :: t =>
    match get_orientation F index s d with
    | Except.error e => Except.error e
    | Except.ok b =>
      match signedIndices F s d t with
      | Except.error e => Except.error e
      | Except.ok rest => Except.ok (index_to_signed_index index b :: rest)

/-- The lambda `process_edge_case(query_idx, s, d, preferred_facet)`.  The
failed `assert(num_intersected_faces >= 1)` is modelled as a fatal
`noIntersection` error. -/
def process_edge_case (ctx : Ctx) (q : Pt) (s d preferred : ℕ) :
    Except CFError (ℕ × Bool) :=
  let idxs := edgeIdxs ctx q s d
  match signedIndices ctx.F s d idxs with
  | Except.error e => Except.error e
  | Except.ok sg =>
    if idxs.length = 0 then Except.error CFError.noIntersection
    else if idxs.length = 1 then
      match on_the_positive_side ctx.V ctx.F (idxs.getD 0 0) q with
      | Except.error e => Except.error e
      | Except.ok ori => Except.ok (idxs.getD 0 0, ori)
    else
      let ord := ctx.orderFacets s d sg q
      let first := ord.getD 0 0
      let last := ord.getD (idxs.length - 1) 0
      if idxs.getD first 0 = preferred then
        Except.ok (idxs.getD first 0, decide (sg.getD first 0 < 0))
      else if idxs.getD last 0 = preferred then
        Except.ok (idxs.getD last 0, decide (0 < sg.getD last 0))
      else
        Except.ok (idxs.getD (ord.getD 0 0) 0, decide (sg.getD (ord.getD 0 0) 0 < 0))

/-- The lambda `process_face_case(query_idx, fid)`; `ofid` is the original
facet id `I(fid, 0)`. -/
def process_face_case (ctx : Ctx) (q : Pt) (ofid : ℕ) : Except CFError (ℕ × Bool) :=
  let f := ctx.F.getD ofid default
  process_edge_case ctx q f.a f.b ofid

/-- The vertices of facet `f` other than `s`, in field order (the three
conditional `insert`s into `adj_vertices_set` for one facet). -/
def adjOf (f : Facet) (s : ℕ) : List ℕ :=
  (if f.a ≠ s then [f.a] else []) ++ (if f.b ≠ s then [f.b] else [])
    ++ (if f.c ≠ s then [f.c] else [])

/-- Insertion into a strictly ascending list, ignoring duplicates: one
`std::set<size_t>::insert`. -/
def setInsert (x : ℕ) : List ℕ → List ℕ
  | [] => [x]
  | y :: ys => if x < y then x :: y :: ys else if x = y then y :: ys else y :: setInsert x ys

/-- The contents of a `std::set<size_t>` built from the elements of `l`:
sorted ascending and deduplicated. -/
def sortedDedup (l : List ℕ) : List ℕ := l.foldr setInsert []

/-- The `std::set<size_t> adj_vertices_set` copied out to a vector: the
adjacent vertices of `s` over the intersected facets, sorted ascending and
deduplicated. -/
def adjVerticesOf (F : Array Facet) (s : ℕ) (idxs : List ℕ) : List ℕ :=
  sortedDedup (idxs.flatMap (fun fid => adjOf (F.getD fid default) s))

/-- The lambda `is_on_exterior(separator)` for the plane through
`pp`, `pq`, `pr`: all adjacent points on or to one side, and the query point
strictly on the other. -/
def is_on_exterior (adjPts : List Pt) (queryPt pp pq pr : Pt) : Bool :=
  let pos := adjPts.countP (fun pt => decide (0 < orient3d pp pq pr pt))
  let neg := adjPts.countP (fun pt => decide (orient3d pp pq pr pt < 0))
  let qo := orient3d pp pq pr queryPt
  (decide (pos = 0) && decide (0 < qo)) || (decide (neg = 0) && decide (qo < 0))

/-- The inner `for j` loop of the separating-plane search for a fixed
`adj_points[i] = pA`: scan the remaining points, abort on a degenerate
separator plane, and report whether some pair gives an exterior plane. -/
def innerScan (closest queryPt : Pt) (adjPts : List Pt) (pA : Pt) (rest : List Pt) :
    Except CFError Bool :=
  match rest with
  | [] => Except.ok false
  | pB :: rest2 =>
    if collinear closest pA pB then Except.error CFError.degenerateFaces
    else if is_on_exterior adjPts queryPt closest pA pB then Except.ok true
    else innerScan closest queryPt adjPts pA rest2

/-- The double loop of `process_vertex_case` choosing `d`.  The `break` in the
source exits only the inner loop, so a success at a later `i` overwrites the
`d` found at an earlier `i`: the fold keeps the last successful `adj_vertices[i]`. -/
def findSep (closest queryPt : Pt) (adjV : List ℕ) (adjP : List Pt) :
    Except CFError (Option ℕ) :=
  (List.range adjV.length).foldlM
    (fun acc i =>
      match innerScan closest queryPt adjP (adjP.getD i default) (adjP.drop (i + 1)) with
      | Except.error e => Except.error e
      | Except.ok found => Except.ok (if found then some (adjV.getD i 0) else acc))
    none

/-- The original-mesh facet ids of the primitives intersected by the segment
from vertex `s` to the query point (the transform in `process_vertex_case`). -/
def vertIdxs (ctx : Ctx) (q : Pt) (s : ℕ) : List ℕ :=
  (ctx.allIntersected (ctx.vpt s) q).map ctx.orig

/-- The lambda `process_vertex_case(query_idx, s, preferred_facet)`.  When the
separating-plane search exhausts all pairs without success the source only has
`assert(d != std::numeric_limits<size_t>::max())`; that failed assertion is
modelled as a fatal `unresolvedVertexCase` error. -/
def process_vertex_case (ctx : Ctx) (q : Pt) (s preferred : ℕ) :
    Except CFError (ℕ × Bool) :=
  let closest := ctx.vpt s
  let idxs := vertIdxs ctx q s
  let adjV := adjVerticesOf ctx.F s idxs
  let adjP := adjV.map ctx.vpt
  match findSep closest q adjV adjP with
  | Except.error e => Except.error e
  | Except.ok (some d) => process_edge_case ctx q s d preferred
  | Except.ok none => Except.error CFError.unresolvedVertexCase

/-- `f[k]` for a facet row, as used with `element_index` arithmetic. -/
def facetVertex (f : Facet) (k : ℕ) : ℕ :=
  if k = 0 then f.a else if k = 1 then f.b else f.c

/-- One iteration of the main query loop of `closest_facet`: find the nearest
point and owning primitive, classify the nearest point, and dispatch to the
vertex / edge / face case handler.  (The unused `intersected_faces` gather at
the top of the loop body has no observable effect and is omitted.) -/
def resolve (ctx : Ctx) (q : Pt) : Except CFError (ℕ × Bool) :=
  let pr := ctx.closestPP q
  let ofid := ctx.orig pr.2
  let et := determine_element_type ctx.V ctx.F pr.1 ofid
  match et.1 with
  | ElementType.VERTEX =>
    process_vertex_case ctx q (facetVertex (ctx.F.getD ofid default) et.2) ofid
  | ElementType.EDGE =>
    process_edge_case ctx q (facetVertex (ctx.F.getD ofid default) ((et.2 + 1) % 3))
      (facetVertex (ctx.F.getD ofid default) ((et.2 + 2) % 3)) ofid
  | ElementType.FACE => process_face_case ctx q ofid

/-- Whether the triangle built for subset position `i` (facet `I(i, 0)`) is
degenerate (`Triangle_3::is_degenerate`, i.e. its corners are collinear). -/
def selTriDegen (V : Array Pt) (F : Array Facet) (I : Array ℕ) (i : ℕ) : Bool :=
  let f := F.getD (I.getD i 0) default
  collinear (V.getD f.a default) (V.getD f.b default) (V.getD f.c default)

/-- The triangle-building loop of `closest_facet`: walk the subset in order and
abort at the first degenerate triangle.  (The triangle list itself is only
consumed by the AABB tree, which is an oracle here.) -/
def buildTriangles (V : Array Pt) (F : Array Facet) (I : Array ℕ) :
    Except CFError Unit :=
  (List.range I.size).foldlM
    (fun _ i =>
      if selTriDegen V F I i then Except.error CFError.degenerateTriangle
      else Except.ok ())
    ()

/-- The whole `closest_facet` entry point: reject an empty mesh or subset,
build (and check) the triangles, then resolve every query point in order. -/
def closest_facet (V : Array Pt) (F : Array Facet) (I : Array ℕ)
    (allI : Pt → Pt → List ℕ) (cpp : Pt → Pt × ℕ)
    (ordf : ℕ → ℕ → List Int → Pt → List ℕ) (P : List Pt) :
    Except CFError (List (ℕ × Bool)) :=
  if F.size = 0 ∨ I.size = 0 then Except.error CFError.emptyMesh
  else
    match buildTriangles V F I with
    | Except.error e => Except.error e
    | Except.ok _ => P.mapM (resolve (Ctx.mk V F I allI cpp ordf))

/-- The per-patch vote accumulators of `reorient_facets_raycast` after the ray
shooting loop: for each patch id, the front/back parity sums, the front/back
counts of rays reaching infinity, and the front/back distance sums. -/
structure VoteData where
  parityFront : ℕ → ℕ
  parityBack : ℕ → ℕ
  infinityFront : ℕ → ℕ
  infinityBack : ℕ → ℕ
  distFront : ℕ → ℚ
  distBack : ℕ → ℚ

/-- The per-patch flip decision of the final loop of `reorient_facets_raycast`
(`I(f) = ... ? 1 : 0`). -/
def patchFlip (useParity : Bool) (vd : VoteData) (c : ℕ) : ℕ :=
  if useParity then
    if vd.parityBack c < vd.parityFront c then 1 else 0
  else
    if (vd.infinityFront c = vd.infinityBack c ∧ vd.distFront c < vd.distBack c)
        ∨ vd.infinityFront c < vd.infinityBack c then 1 else 0

/-- The output vector `I` of `reorient_facets_raycast`: one flag per facet,
looked up through the facet's patch id `C(f)`. -/
def reorient_flags (m : ℕ) (C : ℕ → ℕ) (useParity : Bool) (vd : VoteData) : List ℕ :=
  (List.range m).map (fun f => patchFlip useParity vd (C f))

/-! ### Helper lemmas -/

theorem get_orientation_error_eq (F : Array Facet) (i s d : ℕ) (e : CFError)
    (h : get_orientation F i s d = Except.error e) :
    e = CFError.inconsistentConnectivity := by
  dsimp only [get_orientation] at h
  split_ifs at h
  simp_all

/-- The signed index that `signedIndices` computes for facet `i` when
`get_orientation` succeeds on it. -/
def sgFun (F : Array Facet) (s d i : ℕ) : Int :=
  match get_orientation F i s d with
  | Except.ok b => index_to_signed_index i b
  | Except.error _ => 0

/-- Every facet of the list has a well-defined orientation along `(s, d)`. -/
def allOk (F : Array Facet) (s d : ℕ) (l : List ℕ) : Prop :=
  ∀ i ∈ l, ∃ b, get_orientation F i s d = Except.ok b

theorem signedIndices_eq_map (F : Array Facet) (s d : ℕ) (l : List ℕ)
    (h : allOk F s d l) :
    signedIndices F s d l = Except.ok (l.map (sgFun F s d)) := by
  induction l with
  | nil => rfl
  | cons a t ih =>
    obtain ⟨b, hb⟩ := h a (by simp)
    have ht : allOk F s d t := fun i hi => h i (by simp [hi])
    simp [signedIndices, hb, ih ht, sgFun]

theorem signedIndices_error (F : Array Facet) (s d : ℕ) (l : List ℕ)
    (h : ¬ allOk F s d l) :
    signedIndices F s d l = Except.error CFError.inconsistentConnectivity := by
  induction l with
  | nil => exact absurd (fun i hi => absurd hi (List.not_mem_nil i)) h
  | cons a t ih =>
    by_cases hb : ∃ b, get_orientation F a s d = Except.ok b
    · obtain ⟨b, hb⟩ := hb
      have ht : ¬ allOk F s d t := by
        intro hT
        exact h (fun i hi => by
          rcases List.mem_cons.mp hi with h1 | h2
          · exact ⟨b, h1 ▸ hb⟩
          · exact hT i h2)
      simp [signedIndices, hb, ih ht]
    · rcases hga : get_orientation F a s d with e | b2
      · have he := get_orientation_error_eq F a s d e hga
        simp [signedIndices, hga, he]
      · exact absurd ⟨b2, hga⟩ hb

theorem sgFun_natAbs (F : Array Facet) (s d i : ℕ) (b : Bool)
    (h : get_orientation F i s d = Except.ok b) :
    (sgFun F s d i).natAbs = i + 1 := by
  simp only [sgFun, h, index_to_signed_index]
  cases b <;> (simp [Int.natAbs_mul]; omega)

theorem getD_idx_natAbs (F : Array Facet) (s d : ℕ) (l : List ℕ)
    (h : allOk F s d l) (k : ℕ) :
    l.getD k 0 = ((l.map (sgFun F s d)).getD k 0).natAbs - 1 := by
  by_cases hk : k < l.length
  · have h1 : l.getD k 0 = l[k] := by
      simp [List.getD_eq_getElem?_getD, List.getElem?_eq_getElem hk]
    have h2 : (l.map (sgFun F s d)).getD k 0 = sgFun F s d l[k] := by
      simp [List.getD_eq_getElem?_getD, List.getElem?_map, List.getElem?_eq_getElem hk]
    obtain ⟨b, hb⟩ := h l[k] (l.getElem_mem hk)
    rw [h1, h2, sgFun_natAbs F s d _ b hb]
    omega
  · push_neg at hk
    rw [List.getD_eq_default _ _ hk, List.getD_eq_default]
    · rfl
    · simpa using hk

theorem mem_setInsert (x a : ℕ) (l : List ℕ) :
    a ∈ setInsert x l ↔ a = x ∨ a ∈ l := by
  induction l with
  | nil => simp [setInsert]
  | cons y ys ih =>
    simp only [setInsert]
    split_ifs with h1 h2
    · simp [List.mem_cons]
    · subst h2
      simp only [List.mem_cons]
      tauto
    · simp only [List.mem_cons, ih]
      tauto

theorem sorted_setInsert (x : ℕ) {l : List ℕ} (h : l.Sorted (· < ·)) :
    (setInsert x l).Sorted (· < ·) := by
  induction l with
  | nil => simp [setInsert]
  | cons y ys ih =>
    rw [List.sorted_cons] at h
    simp only [setInsert]
    split_ifs with h1 h2
    · rw [List.sorted_cons]
      refine ⟨fun b hb => ?_, List.sorted_cons.mpr h⟩
      rcases List.mem_cons.mp hb with rfl | hb2
      · exact h1
      · exact lt_trans h1 (h.1 b hb2)
    · exact List.sorted_cons.mpr h
    · rw [List.sorted_cons]
      refine ⟨fun b hb => ?_, ih h.2⟩
      rcases (mem_setInsert x b ys).mp hb with rfl | hb2
      · omega
      · exact h.1 b hb2

theorem sorted_sortedDedup (l : List ℕ) : (sortedDedup l).Sorted (· < ·) := by
  induction l with
  | nil => simp [sortedDedup]
  | cons a t ih => exact sorted_setInsert a ih

theorem mem_sortedDedup (l : List ℕ) (a : ℕ) : a ∈ sortedDedup l ↔ a ∈ l := by
  induction l with
  | nil => simp [sortedDedup]
  | cons y ys ih =>
    simp only [sortedDedup] at ih ⊢
    rw [List.foldr_cons, mem_setInsert, ih, List.mem_cons]

theorem sortedDedup_congr {l1 l2 : List ℕ} (h : ∀ a, a ∈ l1 ↔ a ∈ l2) :
    sortedDedup l1 = sortedDedup l2 := by
  haveI : IsAntisymm ℕ (· < ·) := ⟨fun a b h1 h2 => absurd h2 (Nat.lt_asymm h1)⟩
  have s1 := sorted_sortedDedup l1
  have s2 := sorted_sortedDedup l2
  have hm : ∀ a, a ∈ sortedDedup l1 ↔ a ∈ sortedDedup l2 := by
    intro a; rw [mem_sortedDedup, mem_sortedDedup]; exact h a
  exact List.eq_of_perm_of_sorted
    ((List.perm_ext_iff_of_nodup s1.nodup s2.nodup).mpr hm) s1 s2

theorem adjVerticesOf_congr (F : Array Facet) (s : ℕ) {l1 l2 : List ℕ}
    (hp : l1.Perm l2) : adjVerticesOf F s l1 = adjVerticesOf F s l2 := by
  unfold adjVerticesOf
  refine sortedDedup_congr (fun a => ?_)
  simp only [List.mem_flatMap]
  constructor
  · rintro ⟨fid, h1, h2⟩; exact ⟨fid, hp.mem_iff.mp h1, h2⟩
  · rintro ⟨fid, h1, h2⟩; exact ⟨fid, hp.mem_iff.mpr h1, h2⟩

/-! ### Claim C7: the FACE case delegates to the edge case -/

/-- C7: the FACE case is resolved by invoking the edge-case handler on the
facet's first edge (its vertices 0 and 1) with the preferred facet set to that
same facet, so whenever the closest point classifies as FACE, the result of
`resolve` equals the edge-case result for those arguments. -/
theorem C7_face_case_delegates (ctx : Ctx) (q : Pt) (ofid : ℕ) :
    process_face_case ctx q ofid =
      process_edge_case ctx q (ctx.F.getD ofid default).a (ctx.F.getD ofid default).b ofid ∧
    ((determine_element_type ctx.V ctx.F (ctx.closestPP q).1
        (ctx.orig (ctx.closestPP q).2)).1 = ElementType.FACE →
      resolve ctx q =
        process_edge_case ctx q
          (ctx.F.getD (ctx.orig (ctx.closestPP q).2) default).a
          (ctx.F.getD (ctx.orig (ctx.closestPP q).2) default).b
          (ctx.orig (ctx.closestPP q).2)) := by
  constructor
  · rfl
  · intro h
    simp only [resolve, h]
    rfl

/-- Witness for C7 at a concrete context whose closest point classifies as
VERTEX is impossible for the second conjunct; instead the closest-point oracle
is chosen so that the classification is FACE: here the nearest-point oracle
returns a point equal to none of the corners and collinear with no edge. -/
def ctxC7 : Ctx :=
  Ctx.mk #[Pt.mk 0 0 0, Pt.mk 1 0 0, Pt.mk 0 1 0] #[Facet.mk 0 1 2] #[0]
    (fun _ _ => [0]) (fun _ => (Pt.mk (1/4) (1/4) 0, 0)) (fun _ _ sg _ => List.range sg.length)

theorem C7_witness :
    resolve ctxC7 (Pt.mk (1/4) (1/4) 1) =
      process_edge_case ctxC7 (Pt.mk (1/4) (1/4) 1) 0 1 0 := by
  have h := (C7_face_case_delegates ctxC7 (Pt.mk (1/4) (1/4) 1) 0).2
  have hc : (determine_element_type ctxC7.V ctxC7.F
      (ctxC7.closestPP (Pt.mk (1/4) (1/4) 1)).1
      (ctxC7.orig (ctxC7.closestPP (Pt.mk (1/4) (1/4) 1)).2)).1 = ElementType.FACE := by
    norm_num [ctxC7, determine_element_type, Ctx.orig, collinear, ptCross, ptSub, Pt.mk.injEq]
  exact h hc

/-! ### Claim C3: classification priority of the nearest point -/

/-- C3: the nearest point is classified against the owning facet's triangle in
this exact priority order: equality with vertex 0, 1, 2 gives the VERTEX case;
otherwise collinearity with edge (0,1), then (1,2), then (2,0) gives the EDGE
case (with element indices 2, 0, 1 respectively); otherwise the FACE case —
all tests by the exact equality/collinearity predicates. -/
theorem C3_classification (V : Array Pt) (F : Array Facet) (p p0 p1 p2 : Pt) (ofid : ℕ)
    (h0 : V.getD (F.getD ofid default).a default = p0)
    (h1 : V.getD (F.getD ofid default).b default = p1)
    (h2 : V.getD (F.getD ofid default).c default = p2) :
    (p = p0 → determine_element_type V F p ofid = (ElementType.VERTEX, 0)) ∧
    (p ≠ p0 → p = p1 → determine_element_type V F p ofid = (ElementType.VERTEX, 1)) ∧
    (p ≠ p0 → p ≠ p1 → p = p2 →
      determine_element_type V F p ofid = (ElementType.VERTEX, 2)) ∧
    (p ≠ p0 → p ≠ p1 → p ≠ p2 → collinear p0 p1 p = true →
      determine_element_type V F p ofid = (ElementType.EDGE, 2)) ∧
    (p ≠ p0 → p ≠ p1 → p ≠ p2 → collinear p0 p1 p = false → collinear p1 p2 p = true →
      determine_element_type V F p ofid = (ElementType.EDGE, 0)) ∧
    (p ≠ p0 → p ≠ p1 → p ≠ p2 → collinear p0 p1 p = false → collinear p1 p2 p = false →
      collinear p2 p0 p = true →
      determine_element_type V F p ofid = (ElementType.EDGE, 1)) ∧
    (p ≠ p0 → p ≠ p1 → p ≠ p2 → collinear p0 p1 p = false → collinear p1 p2 p = false →
      collinear p2 p0 p = false →
      determine_element_type V F p ofid = (ElementType.FACE, 0)) := by
  subst h0 h1 h2
  refine ⟨?_, ?_, ?_, ?_, ?_, ?_, ?_⟩ <;>
    (intros; simp_all [determine_element_type])

/-- Witness for C3: a query point coinciding with the first corner of the
owning facet is classified as the VERTEX case with element index 0. -/
theorem C3_witness :
    determine_element_type #[Pt.mk 0 0 0, Pt.mk 1 0 0, Pt.mk 0 1 0]
      #[Facet.mk 0 1 2] (Pt.mk 0 0 0) 0 = (ElementType.VERTEX, 0) :=
  (C3_classification #[Pt.mk 0 0 0, Pt.mk 1 0 0, Pt.mk 0 1 0] #[Facet.mk 0 1 2]
    (Pt.mk 0 0 0) (Pt.mk 0 0 0) (Pt.mk 1 0 0) (Pt.mk 0 1 0) 0 rfl rfl rfl).1 rfl

/-! ### Claim C6: signed-reference mapping and connectivity check -/

set_option maxHeartbeats 2000000 in
/-- C6: for a facet with pairwise-distinct vertices and a proper edge `(s, d)`,
at most one of the six cyclic vertex matches holds; the forward matches yield a
false (positive) orientation, the backward matches a true (negative) one, and
if none of the six holds `get_orientation` raises the fatal
inconsistent-connectivity error. -/
theorem C6_connectivity (F : Array Facet) (fid s d fa fb fc : ℕ)
    (hf : F.getD fid default = Facet.mk fa fb fc)
    (hab : fa ≠ fb) (hbc : fb ≠ fc) (hca : fc ≠ fa) (hsd : s ≠ d) :
    (((fa = s ∧ fb = d) ∨ (fb = s ∧ fc = d) ∨ (fc = s ∧ fa = d)) →
        ¬((fa = d ∧ fb = s) ∨ (fb = d ∧ fc = s) ∨ (fc = d ∧ fa = s)) ∧
        get_orientation F fid s d = Except.ok false) ∧
    (((fa = d ∧ fb = s) ∨ (fb = d ∧ fc = s) ∨ (fc = d ∧ fa = s)) →
        ¬((fa = s ∧ fb = d) ∨ (fb = s ∧ fc = d) ∨ (fc = s ∧ fa = d)) ∧
        get_orientation F fid s d = Except.ok true) ∧
    (get_orientation F fid s d = Except.error CFError.inconsistentConnectivity ↔
        ¬((fa = s ∧ fb = d) ∨ (fb = s ∧ fc = d) ∨ (fc = s ∧ fa = d) ∨
          (fa = d ∧ fb = s) ∨ (fb = d ∧ fc = s) ∨ (fc = d ∧ fa = s))) ∧
    (¬((fa = s ∧ fb = d) ∧ (fb = s ∧ fc = d)) ∧ ¬((fa = s ∧ fb = d) ∧ (fc = s ∧ fa = d)) ∧
     ¬((fb = s ∧ fc = d) ∧ (fc = s ∧ fa = d)) ∧
     ¬((fa = d ∧ fb = s) ∧ (fb = d ∧ fc = s)) ∧ ¬((fa = d ∧ fb = s) ∧ (fc = d ∧ fa = s)) ∧
     ¬((fb = d ∧ fc = s) ∧ (fc = d ∧ fa = s))) := by
  refine ⟨?_, ?_, ?_, by omega⟩
  · intro h
    refine ⟨by omega, ?_⟩
    simp only [get_orientation, hf]
    split_ifs <;> first | rfl | (exfalso; omega)
  · intro h
    refine ⟨by omega, ?_⟩
    simp only [get_orientation, hf]
    split_ifs <;> first | rfl | (exfalso; omega)
  · simp only [get_orientation, hf]
    split_ifs with h1 h2 h3 h4 h5 h6 <;>
      first
        | exact iff_of_false (by simp) (by omega)
        | exact iff_of_true rfl (by omega)

/-- Witness for C6: facet `(3, 5, 9)` traverses the edge `(3, 5)` forward, so
the signed reference is positive (orientation `false`). -/
theorem C6_witness :
    get_orientation #[Facet.mk 3 5 9] 0 3 5 = Except.ok false :=
  ((C6_connectivity #[Facet.mk 3 5 9] 0 3 5 3 5 9 rfl
    (by omega) (by omega) (by omega) (by omega)).1 (Or.inl ⟨rfl, rfl⟩)).2

/-! ### Claim C2: single intersected facet (boundary edge) -/

theorem edge_case_single_eval (ctx : Ctx) (q : Pt) (s d pref k : ℕ) (sg : List Int)
    (hidx : edgeIdxs ctx q s d = [k])
    (hsg : signedIndices ctx.F s d [k] = Except.ok sg) :
    process_edge_case ctx q s d pref =
      match on_the_positive_side ctx.V ctx.F k q with
      | Except.error e => Except.error e
      | Except.ok b => Except.ok (k, b) := by
  simp [process_edge_case, hidx, hsg]

/-- C2: if exactly one facet intersects the segment from the edge midpoint to
the query point (and its signed index is computable), the edge case returns
that facet with orientation given solely by the exact plane-side predicate on
that facet's supporting plane; a COPLANAR predicate result becomes the fatal
self-intersection error; and the result does not depend on the Angular
Ordering oracle at all. -/
theorem C2_boundary_edge (ctx : Ctx) (q : Pt) (s d pref k : ℕ) (sg : List Int)
    (hidx : edgeIdxs ctx q s d = [k])
    (hsg : signedIndices ctx.F s d [k] = Except.ok sg) :
    (process_edge_case ctx q s d pref =
      match on_the_positive_side ctx.V ctx.F k q with
      | Except.error e => Except.error e
      | Except.ok b => Except.ok (k, b)) ∧
    (on_the_positive_side ctx.V ctx.F k q = Except.error CFError.selfIntersection →
      process_edge_case ctx q s d pref = Except.error CFError.selfIntersection) ∧
    (∀ g, process_edge_case { ctx with orderFacets := g } q s d pref =
      process_edge_case ctx q s d pref) := by
  refine ⟨edge_case_single_eval ctx q s d pref k sg hidx hsg, ?_, ?_⟩
  · intro hcop
    rw [edge_case_single_eval ctx q s d pref k sg hidx hsg, hcop]
  · intro g
    rw [edge_case_single_eval { ctx with orderFacets := g } q s d pref k sg hidx hsg,
      edge_case_single_eval ctx q s d pref k sg hidx hsg]

/-- Fixture for the C2 witness: a mesh of one triangle; the only primitive is
returned for every segment query. -/
def ctxC2 : Ctx :=
  Ctx.mk #[Pt.mk 0 0 0, Pt.mk 1 0 0, Pt.mk 0 1 0] #[Facet.mk 0 1 2] #[0]
    (fun _ _ => [0]) (fun _ => (Pt.mk 0 0 0, 0)) (fun _ _ sg _ => List.range sg.length)

theorem C2_witness :
    process_edge_case ctxC2 (Pt.mk 0 0 1) 0 1 0 = Except.ok (0, true) := by
  have h := (C2_boundary_edge ctxC2 (Pt.mk 0 0 1) 0 1 0 0 [-1] (by rfl) (by rfl)).1
  rw [h]
  have hpos : on_the_positive_side ctxC2.V ctxC2.F 0 (Pt.mk 0 0 1) = Except.ok true := by
    norm_num [ctxC2, on_the_positive_side, orient3d, det3, ptSub]
  rw [hpos]

/-! ### Claim C1: choice among the angular order (corrected) -/

/-- C1 (amended): with at least two intersected facets, the edge case returns
the facet at the first or last position of the angular order, preferring
whichever of the two equals the preferred facet and defaulting to the first;
the orientation is `signed index < 0` when the chosen entry is the first of the
order (including the default case), but `signed index > 0` when the chosen
entry is the last of the order. -/
theorem C1_amended_choice (ctx : Ctx) (q : Pt) (s d pref : ℕ) (sg : List Int)
    (idxs ord : List ℕ) (fst lst : ℕ)
    (hidxs : edgeIdxs ctx q s d = idxs)
    (hsg : signedIndices ctx.F s d idxs = Except.ok sg)
    (hlen : 2 ≤ idxs.length)
    (hord : ctx.orderFacets s d sg q = ord)
    (hfst : ord.getD 0 0 = fst)
    (hlst : ord.getD (idxs.length - 1) 0 = lst) :
    process_edge_case ctx q s d pref =
      if idxs.getD fst 0 = pref then
        Except.ok (idxs.getD fst 0, decide (sg.getD fst 0 < 0))
      else if idxs.getD lst 0 = pref then
        Except.ok (idxs.getD lst 0, decide (0 < sg.getD lst 0))
      else
        Except.ok (idxs.getD fst 0, decide (sg.getD fst 0 < 0)) := by
  subst hidxs hord hfst hlst
  have h0 : ¬ (edgeIdxs ctx q s d).length = 0 := by omega
  have h1 : ¬ (edgeIdxs ctx q s d).length = 1 := by omega
  simp [process_edge_case, hsg, h0, h1]

/-- Fixture for C1: two facets sharing the edge `(0, 1)`; facet 0 carries the
edge forward (signed index `-1`), facet 1 backward (signed index `+2`); both
are intersected and the ordering oracle returns them in list order. -/
def ctxC1 : Ctx :=
  Ctx.mk #[Pt.mk 0 0 0, Pt.mk 1 0 0, Pt.mk 0 1 0, Pt.mk 0 0 1]
    #[Facet.mk 0 1 2, Facet.mk 1 0 3] #[0, 1]
    (fun _ _ => [0, 1]) (fun _ => (Pt.mk 0 0 0, 0)) (fun _ _ sg _ => List.range sg.length)

/-- Counterexample to C1 as stated: the chosen entry is the last of the order
(it matches the preferred facet 1) and its signed index is `+2`, which is not
negative, yet the returned orientation is `true` — the code derives the
orientation of a last-position choice from `signed index > 0`, not `< 0`. -/
theorem C1_counterexample :
    process_edge_case ctxC1 (Pt.mk 3 3 3) 0 1 1 = Except.ok (1, true) ∧
    signedIndices ctxC1.F 0 1 (edgeIdxs ctxC1 (Pt.mk 3 3 3) 0 1) = Except.ok [-1, 2] ∧
    ¬((2 : Int) < 0) :=
  ⟨rfl, rfl, by decide⟩

theorem C1_witness :
    process_edge_case ctxC1 (Pt.mk 3 3 3) 0 1 0 = Except.ok (0, true) := by
  have h := C1_amended_choice ctxC1 (Pt.mk 3 3 3) 0 1 0 [-1, 2] [0, 1] [0, 1] 0 1
    (by rfl) (by rfl) (by decide) (by rfl) (by rfl) (by rfl)
  rw [h]
  rfl

/-! ### Claim C5: construction rejects empty or degenerate input -/

theorem buildTriangles_error (V : Array Pt) (F : Array Facet) (I : Array ℕ)
    (h : ∃ i, i < I.size ∧ selTriDegen V F I i = true) :
    buildTriangles V F I = Except.error CFError.degenerateTriangle := by
  have key : ∀ l : List ℕ, (∃ i ∈ l, selTriDegen V F I i = true) →
      (l.foldlM
        (fun _ i =>
          if selTriDegen V F I i then Except.error CFError.degenerateTriangle
          else Except.ok ())
        ()) = Except.error CFError.degenerateTriangle := by
    intro l
    induction l with
    | nil => rintro ⟨i, hi, _⟩; exact absurd hi (List.not_mem_nil i)
    | cons a t ih =>
      rintro ⟨i, hi, hdeg⟩
      by_cases ha : selTriDegen V F I a = true
      · simp [List.foldlM_cons, ha]
        rfl
      · have hstep : (if selTriDegen V F I a then Except.error CFError.degenerateTriangle
            else Except.ok ()) = Except.ok () := by simp [ha]
        rcases List.mem_cons.mp hi with rfl | hit
        · exact absurd hdeg ha
        · rw [List.foldlM_cons, hstep]
          have hbind : (Except.ok () >>= fun b => List.foldlM
              (fun _ i =>
                if selTriDegen V F I i then Except.error CFError.degenerateTriangle
                else Except.ok ())
              b t) = List.foldlM
              (fun _ i =>
                if selTriDegen V F I i then Except.error CFError.degenerateTriangle
                else Except.ok ())
              () t := rfl
          rw [hbind]
          exact ih ⟨i, hit, hdeg⟩
  obtain ⟨i, hi, hdeg⟩ := h
  exact key (List.range I.size) ⟨i, List.mem_range.mpr hi, hdeg⟩

/-- C5: construction fails with the empty-mesh error if the mesh or the facet
subset is empty, and with the degenerate-triangle error if any selected facet's
triangle is degenerate; in both cases the same error is produced for every
query set, so the failure happens before any query is answered and no partial
result exists. -/
theorem C5_construction (V : Array Pt) (F : Array Facet) (I : Array ℕ)
    (allI : Pt → Pt → List ℕ) (cpp : Pt → Pt × ℕ)
    (ordf : ℕ → ℕ → List Int → Pt → List ℕ) :
    ((F.size = 0 ∨ I.size = 0) →
      ∀ P, closest_facet V F I allI cpp ordf P = Except.error CFError.emptyMesh) ∧
    (¬(F.size = 0 ∨ I.size = 0) → (∃ i, i < I.size ∧ selTriDegen V F I i = true) →
      ∀ P, closest_facet V F I allI cpp ordf P =
        Except.error CFError.degenerateTriangle) := by
  constructor
  · intro h P
    unfold closest_facet
    rw [if_pos h]
  · intro h hdeg P
    unfold closest_facet
    rw [if_neg h, buildTriangles_error V F I hdeg]

theorem C5_witness :
    closest_facet #[Pt.mk 0 0 0, Pt.mk 1 0 0, Pt.mk 2 0 0] #[Facet.mk 0 1 2] #[0]
      (fun _ _ => [0]) (fun _ => (Pt.mk 0 0 0, 0)) (fun _ _ sg _ => List.range sg.length)
      [Pt.mk 5 5 5] = Except.error CFError.degenerateTriangle :=
  (C5_construction #[Pt.mk 0 0 0, Pt.mk 1 0 0, Pt.mk 2 0 0] #[Facet.mk 0 1 2] #[0]
    (fun _ _ => [0]) (fun _ => (Pt.mk 0 0 0, 0)) (fun _ _ sg _ => List.range sg.length)).2
    (by decide)
    ⟨0, by decide, by norm_num [selTriDegen, collinear, ptCross, ptSub, Pt.mk.injEq]⟩
    [Pt.mk 5 5 5]

/-! ### Claim C10: reorientation flags are per-patch 0/1 values -/

/-- C10: the output orientation-flag vector of the ray-cast reorientation
routine has one entry per input facet, every entry is 0 or 1, and two facets in
the same connected patch receive the same flag (the flip decision is a function
of the patch only). -/
theorem C10_flags (m : ℕ) (C : ℕ → ℕ) (up : Bool) (vd : VoteData) :
    (reorient_flags m C up vd).length = m ∧
    (∀ x ∈ reorient_flags m C up vd, x = 0 ∨ x = 1) ∧
    (∀ f1 f2, f1 < m → f2 < m → C f1 = C f2 →
      (reorient_flags m C up vd).getD f1 2 = (reorient_flags m C up vd).getD f2 2) := by
  refine ⟨by simp [reorient_flags], ?_, ?_⟩
  · intro x hx
    simp only [reorient_flags, List.mem_map] at hx
    obtain ⟨f, _, rfl⟩ := hx
    unfold patchFlip
    split_ifs <;> simp
  · intro f1 f2 h1 h2 hC
    have e1 : (reorient_flags m C up vd).getD f1 2 = patchFlip up vd (C f1) := by
      simp [reorient_flags, List.getD_eq_getElem?_getD, List.getElem?_range h1]
    have e2 : (reorient_flags m C up vd).getD f2 2 = patchFlip up vd (C f2) := by
      simp [reorient_flags, List.getD_eq_getElem?_getD, List.getElem?_range h2]
    rw [e1, e2, hC]

theorem C10_witness :
    (reorient_flags 2 (fun _ => 0) false
      (VoteData.mk (fun _ => 0) (fun _ => 0) (fun _ => 0) (fun _ => 0)
        (fun _ => 0) (fun _ => 0))).getD 0 2 =
    (reorient_flags 2 (fun _ => 0) false
      (VoteData.mk (fun _ => 0) (fun _ => 0) (fun _ => 0) (fun _ => 0)
        (fun _ => 0) (fun _ => 0))).getD 1 2 :=
  (C10_flags 2 (fun _ => 0) false
    (VoteData.mk (fun _ => 0) (fun _ => 0) (fun _ => 0) (fun _ => 0)
      (fun _ => 0) (fun _ => 0))).2.2 0 1 (by omega) (by omega) rfl

/-! ### Claim C4: exhausted separating-plane search -/

/-- Fixture for C4: a single non-degenerate triangle and a query point that
lies in the triangle's supporting plane, beyond vertex 0, so that the nearest
point is vertex 0 and every candidate separator plane fails the exterior test
(the query point is coplanar with the only available plane). -/
def ctxC4 : Ctx :=
  Ctx.mk #[Pt.mk 0 0 0, Pt.mk 1 0 0, Pt.mk 0 1 0] #[Facet.mk 0 1 2] #[0]
    (fun _ _ => [0]) (fun _ => (Pt.mk 0 0 0, 0)) (fun _ _ sg _ => List.range sg.length)

/-- C4 (evaluation at the failing input): on a perfectly valid one-triangle
mesh with an in-plane query point, the separating-plane search exhausts all
pairs without success; in this model the failed
`assert(d != std::numeric_limits<size_t>::max())` is the fatal
`unresolvedVertexCase` outcome, whereas the source only has an `assert` there
(no typed error; undefined behaviour in release builds). -/
theorem C4_no_separating_plane_eval :
    resolve ctxC4 (Pt.mk (-1) (-1) 0) = Except.error CFError.unresolvedVertexCase := by
  norm_num [resolve, ctxC4, Ctx.vpt, Ctx.orig, determine_element_type, process_vertex_case,
    vertIdxs, adjVerticesOf, adjOf, sortedDedup, setInsert, findSep, innerScan,
    is_on_exterior, collinear, ptCross, ptSub, orient3d, det3, midPt,
    process_edge_case, edgeIdxs, signedIndices, get_orientation, index_to_signed_index,
    on_the_positive_side, facetVertex, List.foldlM, List.range_succ,
    Except.bind, Except.pure, bind, pure]

/-! ### Geometric permutation lemmas for the single-triangle analysis -/

theorem orient3d_snd_eq_zero (a b c : Pt) : orient3d a b c b = 0 := by
  simp only [orient3d, det3, ptSub]
  ring

theorem orient3d_thd_eq_zero (a b c : Pt) : orient3d a b c c = 0 := by
  simp only [orient3d, det3, ptSub]
  ring

theorem orient3d_swap01 (p q r s : Pt) : orient3d q p r s = -orient3d p q r s := by
  simp only [orient3d, det3, ptSub]
  ring

theorem orient3d_rot (p q r s : Pt) : orient3d r p q s = orient3d p q r s := by
  simp only [orient3d, det3, ptSub]
  ring

theorem collinear_swap01 (p q r : Pt) : collinear q p r = collinear p q r := by
  simp only [collinear, ptCross, ptSub, Pt.mk.injEq]
  rw [decide_eq_decide]
  constructor <;> (rintro ⟨h1, h2, h3⟩; refine ⟨?_, ?_, ?_⟩)
  · linear_combination -h1
  · linear_combination -h2
  · linear_combination -h3
  · linear_combination -h1
  · linear_combination -h2
  · linear_combination -h3

theorem collinear_rot (p q r : Pt) : collinear r p q = collinear p q r := by
  simp only [collinear, ptCross, ptSub, Pt.mk.injEq]
  rw [decide_eq_decide]
  constructor <;> (rintro ⟨h1, h2, h3⟩; refine ⟨?_, ?_, ?_⟩)
  · linear_combination h1
  · linear_combination h2
  · linear_combination h3
  · linear_combination h1
  · linear_combination h2
  · linear_combination h3

/-- For the plane through `a`, `b`, `c` with adjacent points exactly `b` and
`c` (both on the plane) and a query point strictly off the plane, the
exterior test succeeds. -/
theorem is_on_exterior_plane (a b c q : Pt) (h : orient3d a b c q ≠ 0) :
    is_on_exterior [b, c] q a b c = true := by
  have h1 := orient3d_snd_eq_zero a b c
  have h2 := orient3d_thd_eq_zero a b c
  rcases lt_or_gt_of_ne h with hlt | hgt
  · have hnp : ¬ (0 : ℚ) < orient3d a b c q := not_lt.mpr (le_of_lt hlt)
    simp [is_on_exterior, h1, h2, hlt, hnp]
  · have hnn : ¬ orient3d a b c q < (0 : ℚ) := not_lt.mpr (le_of_lt hgt)
    simp [is_on_exterior, h1, h2, hgt, hnn]

/-! ### Claim C8: resolve on a single-triangle mesh -/

/-- Degenerate collinearity: the first two points coincide. -/
theorem collinear_aab (a b : Pt) : collinear a a b = true := by
  simp only [collinear, ptCross, ptSub, Pt.mk.injEq, decide_eq_true_eq]
  refine ⟨by ring, by ring, by ring⟩

/-- Degenerate collinearity: the third point equals the first. -/
theorem collinear_aba (a b : Pt) : collinear a b a = true := by
  simp only [collinear, ptCross, ptSub, Pt.mk.injEq, decide_eq_true_eq]
  refine ⟨by ring, by ring, by ring⟩

/-- Degenerate collinearity: the last two points coincide. -/
theorem collinear_abb (a b : Pt) : collinear a b b = true := by
  simp only [collinear, ptCross, ptSub, Pt.mk.injEq, decide_eq_true_eq]
  refine ⟨by ring, by ring, by ring⟩

/-- When the separating-plane search succeeds with vertex `dsel`, the vertex
case reduces to the edge case on `(s, dsel)`. -/
theorem process_vertex_case_eval (ctx : Ctx) (q : Pt) (s pref dsel : ℕ)
    (h : findSep (ctx.vpt s) q (adjVerticesOf ctx.F s (vertIdxs ctx q s))
        ((adjVerticesOf ctx.F s (vertIdxs ctx q s)).map ctx.vpt) = Except.ok (some dsel)) :
    process_vertex_case ctx q s pref = process_edge_case ctx q s dsel pref := by
  simp [process_vertex_case, h]

/-- A context for a mesh consisting of the single triangle `(v0, v1, v2)`: by
the Spatial Query Index contract the only primitive 0 is reported for every
segment query (every queried segment has an endpoint on the triangle), and the
nearest-point oracle returns some point `cp` owned by primitive 0. -/
def oneTri (v0 v1 v2 cp : Pt) (ordf : ℕ → ℕ → List Int → Pt → List ℕ) : Ctx :=
  Ctx.mk #[v0, v1, v2] #[Facet.mk 0 1 2] #[0] (fun _ _ => [0]) (fun _ => (cp, 0)) ordf

/-- On a one-triangle mesh with a query point strictly off the supporting
plane, `resolve` returns facet 0 with orientation equal to the side of the
plane, whatever point the nearest-point oracle reports and whatever the
Angular Ordering oracle is. -/
theorem resolve_single_tri (v0 v1 v2 cp q : Pt) (ordf : ℕ → ℕ → List Int → Pt → List ℕ)
    (hnd : collinear v0 v1 v2 = false) (hne : orient3d v0 v1 v2 q ≠ 0) :
    resolve (oneTri v0 v1 v2 cp ordf) q =
      Except.ok (0, decide (0 < orient3d v0 v1 v2 q)) := by
  have hpos : on_the_positive_side (oneTri v0 v1 v2 cp ordf).V (oneTri v0 v1 v2 cp ordf).F 0 q =
      Except.ok (decide (0 < orient3d v0 v1 v2 q)) := by
    rcases lt_or_gt_of_ne hne with hlt | hgt
    · have h2 : ¬ (0:ℚ) < orient3d v0 v1 v2 q := not_lt.mpr (le_of_lt hlt)
      simp [oneTri, on_the_positive_side, hlt, h2]
    · simp [oneTri, on_the_positive_side, hgt]
  have he01 : ∀ pref, process_edge_case (oneTri v0 v1 v2 cp ordf) q 0 1 pref =
      Except.ok (0, decide (0 < orient3d v0 v1 v2 q)) := by
    intro pref
    rw [edge_case_single_eval (oneTri v0 v1 v2 cp ordf) q 0 1 pref 0 [-1] (by rfl) (by rfl), hpos]
  have he10 : ∀ pref, process_edge_case (oneTri v0 v1 v2 cp ordf) q 1 0 pref =
      Except.ok (0, decide (0 < orient3d v0 v1 v2 q)) := by
    intro pref
    rw [edge_case_single_eval (oneTri v0 v1 v2 cp ordf) q 1 0 pref 0 [1] (by rfl) (by rfl), hpos]
  have he12 : ∀ pref, process_edge_case (oneTri v0 v1 v2 cp ordf) q 1 2 pref =
      Except.ok (0, decide (0 < orient3d v0 v1 v2 q)) := by
    intro pref
    rw [edge_case_single_eval (oneTri v0 v1 v2 cp ordf) q 1 2 pref 0 [-1] (by rfl) (by rfl), hpos]
  have he20 : ∀ pref, process_edge_case (oneTri v0 v1 v2 cp ordf) q 2 0 pref =
      Except.ok (0, decide (0 < orient3d v0 v1 v2 q)) := by
    intro pref
    rw [edge_case_single_eval (oneTri v0 v1 v2 cp ordf) q 2 0 pref 0 [-1] (by rfl) (by rfl), hpos]
  have hne1 : orient3d v1 v0 v2 q ≠ 0 := by
    rw [orient3d_swap01]; simpa using hne
  have hne2 : orient3d v2 v0 v1 q ≠ 0 := by
    rw [orient3d_rot]; exact hne
  have hnd1 : collinear v1 v0 v2 = false := by rw [collinear_swap01]; exact hnd
  have hnd2 : collinear v2 v0 v1 = false := by rw [collinear_rot]; exact hnd
  have hv0 : process_vertex_case (oneTri v0 v1 v2 cp ordf) q 0 0 =
      Except.ok (0, decide (0 < orient3d v0 v1 v2 q)) := by
    have hfind : findSep v0 q [1, 2] [v1, v2] = Except.ok (some 1) := by
      simp [findSep, List.range_succ, List.foldlM_cons, innerScan, hnd,
        is_on_exterior_plane v0 v1 v2 q hne, Except.bind, bind, pure, Except.pure]
    have hstep : process_vertex_case (oneTri v0 v1 v2 cp ordf) q 0 0 =
        process_edge_case (oneTri v0 v1 v2 cp ordf) q 0 1 0 :=
      process_vertex_case_eval (oneTri v0 v1 v2 cp ordf) q 0 0 1 hfind
    rw [hstep]; exact he01 0
  have hv1 : process_vertex_case (oneTri v0 v1 v2 cp ordf) q 1 0 =
      Except.ok (0, decide (0 < orient3d v0 v1 v2 q)) := by
    have hfind : findSep v1 q [0, 2] [v0, v2] = Except.ok (some 0) := by
      simp [findSep, List.range_succ, List.foldlM_cons, innerScan, hnd1,
        is_on_exterior_plane v1 v0 v2 q hne1, Except.bind, bind, pure, Except.pure]
    have hstep : process_vertex_case (oneTri v0 v1 v2 cp ordf) q 1 0 =
        process_edge_case (oneTri v0 v1 v2 cp ordf) q 1 0 0 :=
      process_vertex_case_eval (oneTri v0 v1 v2 cp ordf) q 1 0 0 hfind
    rw [hstep]; exact he10 0
  have hv2 : process_vertex_case (oneTri v0 v1 v2 cp ordf) q 2 0 =
      Except.ok (0, decide (0 < orient3d v0 v1 v2 q)) := by
    have hfind : findSep v2 q [0, 1] [v0, v1] = Except.ok (some 0) := by
      simp [findSep, List.range_succ, List.foldlM_cons, innerScan, hnd2,
        is_on_exterior_plane v2 v0 v1 q hne2, Except.bind, bind, pure, Except.pure]
    have hstep : process_vertex_case (oneTri v0 v1 v2 cp ordf) q 2 0 =
        process_edge_case (oneTri v0 v1 v2 cp ordf) q 2 0 0 :=
      process_vertex_case_eval (oneTri v0 v1 v2 cp ordf) q 2 0 0 hfind
    rw [hstep]; exact he20 0
  have hd01 : v0 ≠ v1 := by
    intro h
    rw [h, collinear_aab] at hnd
    simp at hnd
  have hd02 : v0 ≠ v2 := by
    intro h
    rw [h, collinear_aba] at hnd
    simp at hnd
  have hd12 : v1 ≠ v2 := by
    intro h
    rw [h, collinear_abb] at hnd
    simp at hnd
  by_cases h0 : cp = v0
  · have hdet : determine_element_type #[v0, v1, v2] #[Facet.mk 0 1 2] cp 0 =
        (ElementType.VERTEX, 0) := by simp [determine_element_type, h0]
    simp [resolve, oneTri, Ctx.orig, hdet, facetVertex]
    simpa [oneTri] using hv0
  · by_cases h1 : cp = v1
    · have hdet : determine_element_type #[v0, v1, v2] #[Facet.mk 0 1 2] cp 0 =
          (ElementType.VERTEX, 1) := by simp [determine_element_type, h0, h1, hd01.symm]
      simp [resolve, oneTri, Ctx.orig, hdet, facetVertex]
      simpa [oneTri] using hv1
    · by_cases h2 : cp = v2
      · have hdet : determine_element_type #[v0, v1, v2] #[Facet.mk 0 1 2] cp 0 =
            (ElementType.VERTEX, 2) := by
          simp [determine_element_type, h0, h1, h2, hd02.symm, hd12.symm]
        simp [resolve, oneTri, Ctx.orig, hdet, facetVertex]
        simpa [oneTri] using hv2
      · rcases hc01 : collinear v0 v1 cp with hfalse | htrue
        · rcases hc12 : collinear v1 v2 cp with hfalse2 | htrue2
          · rcases hc20 : collinear v2 v0 cp with hfalse3 | htrue3
            · have hdet : determine_element_type #[v0, v1, v2] #[Facet.mk 0 1 2] cp 0 =
                  (ElementType.FACE, 0) := by
                simp [determine_element_type, h0, h1, h2, hc01, hc12, hc20]
              simp [resolve, oneTri, Ctx.orig, hdet, process_face_case]
              simpa [oneTri] using he01 0
            · have hdet : determine_element_type #[v0, v1, v2] #[Facet.mk 0 1 2] cp 0 =
                  (ElementType.EDGE, 1) := by
                simp [determine_element_type, h0, h1, h2, hc01, hc12, hc20]
              simp [resolve, oneTri, Ctx.orig, hdet, facetVertex]
              simpa [oneTri] using he20 0
          · have hdet : determine_element_type #[v0, v1, v2] #[Facet.mk 0 1 2] cp 0 =
                (ElementType.EDGE, 0) := by
              simp [determine_element_type, h0, h1, h2, hc01, hc12]
            simp [resolve, oneTri, Ctx.orig, hdet, facetVertex]
            simpa [oneTri] using he12 0
        · have hdet : determine_element_type #[v0, v1, v2] #[Facet.mk 0 1 2] cp 0 =
              (ElementType.EDGE, 2) := by
            simp [determine_element_type, h0, h1, h2, hc01]
          simp [resolve, oneTri, Ctx.orig, hdet, facetVertex]
          simpa [oneTri] using he01 0

/-- C8: for a mesh of exactly one non-degenerate triangle, `resolve` on a
query point strictly on the positive side of the supporting plane returns that
facet with orientation true, and on a query point strictly on the negative
side returns it with orientation false. -/
theorem C8_single_triangle (v0 v1 v2 cp q : Pt) (ordf : ℕ → ℕ → List Int → Pt → List ℕ)
    (hnd : collinear v0 v1 v2 = false) :
    (0 < orient3d v0 v1 v2 q →
      resolve (oneTri v0 v1 v2 cp ordf) q = Except.ok (0, true)) ∧
    (orient3d v0 v1 v2 q < 0 →
      resolve (oneTri v0 v1 v2 cp ordf) q = Except.ok (0, false)) := by
  constructor
  · intro hq
    rw [resolve_single_tri v0 v1 v2 cp q ordf hnd (ne_of_gt hq)]
    simp [hq]
  · intro hq
    rw [resolve_single_tri v0 v1 v2 cp q ordf hnd (ne_of_lt hq)]
    simp [not_lt.mpr (le_of_lt hq)]

/-- Witness for C8: the unit right triangle in the xy-plane and the query
point `(0, 0, 1)` strictly above it resolve to facet 0 with orientation true. -/
theorem C8_witness :
    0 < orient3d (Pt.mk 0 0 0) (Pt.mk 1 0 0) (Pt.mk 0 1 0) (Pt.mk 0 0 1) ∧
    resolve (oneTri (Pt.mk 0 0 0) (Pt.mk 1 0 0) (Pt.mk 0 1 0) (Pt.mk 0 0 0)
      (fun _ _ sg _ => List.range sg.length)) (Pt.mk 0 0 1) = Except.ok (0, true) := by
  have hnd : collinear (Pt.mk 0 0 0) (Pt.mk 1 0 0) (Pt.mk 0 1 0) = false := by
    norm_num [collinear, ptCross, ptSub, Pt.mk.injEq]
  have hq : 0 < orient3d (Pt.mk 0 0 0) (Pt.mk 1 0 0) (Pt.mk 0 1 0) (Pt.mk 0 0 1) := by
    norm_num [orient3d, det3, ptSub]
  exact ⟨hq, (C8_single_triangle (Pt.mk 0 0 0) (Pt.mk 1 0 0) (Pt.mk 0 1 0) (Pt.mk 0 0 0)
    (Pt.mk 0 0 1) (fun _ _ sg _ => List.range sg.length) hnd).1 hq⟩

/-! ### Claim C9: permutation of the facet subset -/

/-- Evaluation of the edge case when at least two facets are intersected:
the selection among the first and last entries of the angular order. -/
theorem edge_case_multi_eval (ctx : Ctx) (q : Pt) (s d pref : ℕ) (sg : List Int)
    (hsg : signedIndices ctx.F s d (edgeIdxs ctx q s d) = Except.ok sg)
    (hlen : 2 ≤ (edgeIdxs ctx q s d).length) :
    process_edge_case ctx q s d pref =
      (if (edgeIdxs ctx q s d).getD ((ctx.orderFacets s d sg q).getD 0 0) 0 = pref then
        Except.ok ((edgeIdxs ctx q s d).getD ((ctx.orderFacets s d sg q).getD 0 0) 0,
          decide (sg.getD ((ctx.orderFacets s d sg q).getD 0 0) 0 < 0))
      else if (edgeIdxs ctx q s d).getD
          ((ctx.orderFacets s d sg q).getD ((edgeIdxs ctx q s d).length - 1) 0) 0 = pref then
        Except.ok ((edgeIdxs ctx q s d).getD
            ((ctx.orderFacets s d sg q).getD ((edgeIdxs ctx q s d).length - 1) 0) 0,
          decide (0 < sg.getD
            ((ctx.orderFacets s d sg q).getD ((edgeIdxs ctx q s d).length - 1) 0) 0))
      else
        Except.ok ((edgeIdxs ctx q s d).getD ((ctx.orderFacets s d sg q).getD 0 0) 0,
          decide (sg.getD ((ctx.orderFacets s d sg q).getD 0 0) 0 < 0))) := by
  have h0 : ¬ (edgeIdxs ctx q s d).length = 0 := by omega
  have h1 : ¬ (edgeIdxs ctx q s d).length = 1 := by omega
  simp [process_edge_case, hsg, h0, h1]

/-- Two lists whose images under `map` agree have equal images of
corresponding in-bounds entries. -/
theorem seq_getD_eq {L1 L2 : List ℕ} {f1 f2 : ℕ → Int} (i : ℕ)
    (hmap : L2.map f2 = L1.map f1) (hi1 : i < L1.length) (hi2 : i < L2.length) :
    f2 (L2.getD i 0) = f1 (L1.getD i 0) := by
  have h := congrArg (fun l => l[i]?) hmap
  simp only [List.getElem?_map, List.getElem?_eq_getElem hi1, List.getElem?_eq_getElem hi2,
    Option.map_some'] at h
  rw [List.getD_eq_getElem?_getD, List.getD_eq_getElem?_getD,
    List.getElem?_eq_getElem hi1, List.getElem?_eq_getElem hi2]
  simpa using h

/-- Oracle-coherence congruence for the edge case: if the two contexts share
`V` and `F`, the original-id intersection lists are permutations of each
other, both ordering oracles return position lists of the right length, and
the angular orders read off as signed-index sequences agree, then the edge
case returns identical results.  (The signed-sequence hypothesis is the
Angular Ordering contract: the circular order is a function of the geometry,
not of the input list order.) -/
theorem process_edge_case_congr
    (V : Array Pt) (F : Array Facet) (I1 I2 : Array ℕ)
    (a1 a2 : Pt → Pt → List ℕ) (c1 c2 : Pt → Pt × ℕ)
    (o1 o2 : ℕ → ℕ → List Int → Pt → List ℕ) (q : Pt) (s d pref : ℕ)
    (hperm : (edgeIdxs (Ctx.mk V F I2 a2 c2 o2) q s d).Perm
      (edgeIdxs (Ctx.mk V F I1 a1 c1 o1) q s d))
    (hlen1 : ∀ sg : List Int, (o1 s d sg q).length = sg.length)
    (hlen2 : ∀ sg : List Int, (o2 s d sg q).length = sg.length)
    (hseq : ∀ sg1 sg2 : List Int,
      signedIndices F s d (edgeIdxs (Ctx.mk V F I1 a1 c1 o1) q s d) = Except.ok sg1 →
      signedIndices F s d (edgeIdxs (Ctx.mk V F I2 a2 c2 o2) q s d) = Except.ok sg2 →
      (o2 s d sg2 q).map (fun k => sg2.getD k 0) =
        (o1 s d sg1 q).map (fun k => sg1.getD k 0)) :
    process_edge_case (Ctx.mk V F I2 a2 c2 o2) q s d pref =
      process_edge_case (Ctx.mk V F I1 a1 c1 o1) q s d pref := by
  by_cases hok : allOk F s d (edgeIdxs (Ctx.mk V F I1 a1 c1 o1) q s d)
  · have hok2 : allOk F s d (edgeIdxs (Ctx.mk V F I2 a2 c2 o2) q s d) :=
      fun i hi => hok i (hperm.mem_iff.mp hi)
    have hsg1 := signedIndices_eq_map F s d (edgeIdxs (Ctx.mk V F I1 a1 c1 o1) q s d) hok
    have hsg2 := signedIndices_eq_map F s d (edgeIdxs (Ctx.mk V F I2 a2 c2 o2) q s d) hok2
    have hlen : (edgeIdxs (Ctx.mk V F I2 a2 c2 o2) q s d).length =
        (edgeIdxs (Ctx.mk V F I1 a1 c1 o1) q s d).length := hperm.length_eq
    rcases Nat.lt_or_ge (edgeIdxs (Ctx.mk V F I1 a1 c1 o1) q s d).length 2 with hsmall | hbig
    · rcases hcase : edgeIdxs (Ctx.mk V F I1 a1 c1 o1) q s d with _ | ⟨x, _ | ⟨y, t⟩⟩
      · have h2 : edgeIdxs (Ctx.mk V F I2 a2 c2 o2) q s d = [] :=
          List.Perm.eq_nil (hcase ▸ hperm)
        simp [process_edge_case, hcase, h2]
      · have h2 : edgeIdxs (Ctx.mk V F I2 a2 c2 o2) q s d = [x] :=
          List.perm_singleton.mp (hcase ▸ hperm)
        rw [hcase] at hsg1
        rw [h2] at hsg2
        rw [edge_case_single_eval (Ctx.mk V F I2 a2 c2 o2) q s d pref x _ h2 hsg2,
          edge_case_single_eval (Ctx.mk V F I1 a1 c1 o1) q s d pref x _ hcase hsg1]
      · exfalso
        rw [hcase] at hsmall
        simp only [List.length_cons] at hsmall
        omega
    · have hbig2 : 2 ≤ (edgeIdxs (Ctx.mk V F I2 a2 c2 o2) q s d).length := by omega
      rw [edge_case_multi_eval (Ctx.mk V F I2 a2 c2 o2) q s d pref _ hsg2 hbig2,
        edge_case_multi_eval (Ctx.mk V F I1 a1 c1 o1) q s d pref _ hsg1 hbig]
      dsimp only
      have hmapseq := hseq _ _ hsg1 hsg2
      have ho1len : (o1 s d ((edgeIdxs (Ctx.mk V F I1 a1 c1 o1) q s d).map (sgFun F s d)) q).length =
          (edgeIdxs (Ctx.mk V F I1 a1 c1 o1) q s d).length := by
        rw [hlen1]; simp
      have ho2len : (o2 s d ((edgeIdxs (Ctx.mk V F I2 a2 c2 o2) q s d).map (sgFun F s d)) q).length =
          (edgeIdxs (Ctx.mk V F I2 a2 c2 o2) q s d).length := by
        rw [hlen2]; simp
      have h0lt1 : 0 < (o1 s d ((edgeIdxs (Ctx.mk V F I1 a1 c1 o1) q s d).map (sgFun F s d)) q).length := by omega
      have h0lt2 : 0 < (o2 s d ((edgeIdxs (Ctx.mk V F I2 a2 c2 o2) q s d).map (sgFun F s d)) q).length := by omega
      have hn1lt1 : (edgeIdxs (Ctx.mk V F I1 a1 c1 o1) q s d).length - 1 <
          (o1 s d ((edgeIdxs (Ctx.mk V F I1 a1 c1 o1) q s d).map (sgFun F s d)) q).length := by omega
      have hn1lt2 : (edgeIdxs (Ctx.mk V F I1 a1 c1 o1) q s d).length - 1 <
          (o2 s d ((edgeIdxs (Ctx.mk V F I2 a2 c2 o2) q s d).map (sgFun F s d)) q).length := by omega
      have hs0 : ((edgeIdxs (Ctx.mk V F I2 a2 c2 o2) q s d).map (sgFun F s d)).getD
            ((o2 s d ((edgeIdxs (Ctx.mk V F I2 a2 c2 o2) q s d).map (sgFun F s d)) q).getD 0 0) 0 =
          ((edgeIdxs (Ctx.mk V F I1 a1 c1 o1) q s d).map (sgFun F s d)).getD
            ((o1 s d ((edgeIdxs (Ctx.mk V F I1 a1 c1 o1) q s d).map (sgFun F s d)) q).getD 0 0) 0 :=
        seq_getD_eq 0 hmapseq h0lt1 h0lt2
      have hsn : ((edgeIdxs (Ctx.mk V F I2 a2 c2 o2) q s d).map (sgFun F s d)).getD
            ((o2 s d ((edgeIdxs (Ctx.mk V F I2 a2 c2 o2) q s d).map (sgFun F s d)) q).getD
              ((edgeIdxs (Ctx.mk V F I1 a1 c1 o1) q s d).length - 1) 0) 0 =
          ((edgeIdxs (Ctx.mk V F I1 a1 c1 o1) q s d).map (sgFun F s d)).getD
            ((o1 s d ((edgeIdxs (Ctx.mk V F I1 a1 c1 o1) q s d).map (sgFun F s d)) q).getD
              ((edgeIdxs (Ctx.mk V F I1 a1 c1 o1) q s d).length - 1) 0) 0 :=
        seq_getD_eq ((edgeIdxs (Ctx.mk V F I1 a1 c1 o1) q s d).length - 1) hmapseq hn1lt1 hn1lt2
      have hi0 : (edgeIdxs (Ctx.mk V F I2 a2 c2 o2) q s d).getD
            ((o2 s d ((edgeIdxs (Ctx.mk V F I2 a2 c2 o2) q s d).map (sgFun F s d)) q).getD 0 0) 0 =
          (edgeIdxs (Ctx.mk V F I1 a1 c1 o1) q s d).getD
            ((o1 s d ((edgeIdxs (Ctx.mk V F I1 a1 c1 o1) q s d).map (sgFun F s d)) q).getD 0 0) 0 := by
        rw [getD_idx_natAbs F s d _ hok2, getD_idx_natAbs F s d _ hok, hs0]
      have hin : (edgeIdxs (Ctx.mk V F I2 a2 c2 o2) q s d).getD
            ((o2 s d ((edgeIdxs (Ctx.mk V F I2 a2 c2 o2) q s d).map (sgFun F s d)) q).getD
              ((edgeIdxs (Ctx.mk V F I1 a1 c1 o1) q s d).length - 1) 0) 0 =
          (edgeIdxs (Ctx.mk V F I1 a1 c1 o1) q s d).getD
            ((o1 s d ((edgeIdxs (Ctx.mk V F I1 a1 c1 o1) q s d).map (sgFun F s d)) q).getD
              ((edgeIdxs (Ctx.mk V F I1 a1 c1 o1) q s d).length - 1) 0) 0 := by
        rw [getD_idx_natAbs F s d _ hok2, getD_idx_natAbs F s d _ hok, hsn]
      rw [hlen, hi0, hin, hs0, hsn]
  · have hok2 : ¬ allOk F s d (edgeIdxs (Ctx.mk V F I2 a2 c2 o2) q s d) :=
      fun h2 => hok (fun i hi => h2 i (hperm.mem_iff.mpr hi))
    have hsg1 := signedIndices_error F s d (edgeIdxs (Ctx.mk V F I1 a1 c1 o1) q s d) hok
    have hsg2 := signedIndices_error F s d (edgeIdxs (Ctx.mk V F I2 a2 c2 o2) q s d) hok2
    simp [process_edge_case, hsg1, hsg2]

/-- Oracle-coherence congruence for the vertex case: a permuted intersection
list yields the same sorted adjacent-vertex set, hence the same
separating-plane search, and then the same edge case. -/
theorem process_vertex_case_congr
    (V : Array Pt) (F : Array Facet) (I1 I2 : Array ℕ)
    (a1 a2 : Pt → Pt → List ℕ) (c1 c2 : Pt → Pt × ℕ)
    (o1 o2 : ℕ → ℕ → List Int → Pt → List ℕ) (q : Pt) (s pref : ℕ)
    (hpermV : (vertIdxs (Ctx.mk V F I2 a2 c2 o2) q s).Perm
      (vertIdxs (Ctx.mk V F I1 a1 c1 o1) q s))
    (hedge : ∀ d, process_edge_case (Ctx.mk V F I2 a2 c2 o2) q s d pref =
      process_edge_case (Ctx.mk V F I1 a1 c1 o1) q s d pref) :
    process_vertex_case (Ctx.mk V F I2 a2 c2 o2) q s pref =
      process_vertex_case (Ctx.mk V F I1 a1 c1 o1) q s pref := by
  have hadj : adjVerticesOf F s (vertIdxs (Ctx.mk V F I2 a2 c2 o2) q s) =
      adjVerticesOf F s (vertIdxs (Ctx.mk V F I1 a1 c1 o1) q s) :=
    adjVerticesOf_congr F s hpermV
  have hvpt : Ctx.vpt (Ctx.mk V F I2 a2 c2 o2) = Ctx.vpt (Ctx.mk V F I1 a1 c1 o1) := rfl
  unfold process_vertex_case
  dsimp only
  rw [hadj, hvpt]
  cases hfs : findSep (Ctx.vpt (Ctx.mk V F I1 a1 c1 o1) s) q
      (adjVerticesOf F s (vertIdxs (Ctx.mk V F I1 a1 c1 o1) q s))
      ((adjVerticesOf F s (vertIdxs (Ctx.mk V F I1 a1 c1 o1) q s)).map
        (Ctx.vpt (Ctx.mk V F I1 a1 c1 o1))) with
  | error e => rfl
  | ok oval =>
    cases oval with
    | none => rfl
    | some dsel => exact hedge dsel

/-- C9: permuting the facet subset index list does not change the result of
`resolve` for a fixed query point.  The two contexts share the mesh (`V`,
`F`); `I2` is a permutation of `I1`; the oracle hypotheses express the
black-box contracts of the Spatial Query Index (the same closest point and
the same original owning facet; intersection lists equal as multisets of
original facet ids) and of Angular Ordering (a position list of the input's
length whose read-off signed-index sequence depends only on the geometry). -/
theorem C9_subset_permutation
    (V : Array Pt) (F : Array Facet) (I1 I2 : Array ℕ)
    (a1 a2 : Pt → Pt → List ℕ) (c1 c2 : Pt → Pt × ℕ)
    (o1 o2 : ℕ → ℕ → List Int → Pt → List ℕ) (q : Pt)
    (_hI : I2.toList.Perm I1.toList)
    (hcpt : (c2 q).1 = (c1 q).1)
    (hco : I2.getD (c2 q).2 0 = I1.getD (c1 q).2 0)
    (hallE : ∀ s d : ℕ, (edgeIdxs (Ctx.mk V F I2 a2 c2 o2) q s d).Perm
      (edgeIdxs (Ctx.mk V F I1 a1 c1 o1) q s d))
    (hallV : ∀ s : ℕ, (vertIdxs (Ctx.mk V F I2 a2 c2 o2) q s).Perm
      (vertIdxs (Ctx.mk V F I1 a1 c1 o1) q s))
    (hlen1 : ∀ s d (sg : List Int), (o1 s d sg q).length = sg.length)
    (hlen2 : ∀ s d (sg : List Int), (o2 s d sg q).length = sg.length)
    (hseq : ∀ s d (sg1 sg2 : List Int),
      signedIndices F s d (edgeIdxs (Ctx.mk V F I1 a1 c1 o1) q s d) = Except.ok sg1 →
      signedIndices F s d (edgeIdxs (Ctx.mk V F I2 a2 c2 o2) q s d) = Except.ok sg2 →
      (o2 s d sg2 q).map (fun k => sg2.getD k 0) =
        (o1 s d sg1 q).map (fun k => sg1.getD k 0)) :
    resolve (Ctx.mk V F I2 a2 c2 o2) q = resolve (Ctx.mk V F I1 a1 c1 o1) q := by
  have hedge : ∀ s d pref, process_edge_case (Ctx.mk V F I2 a2 c2 o2) q s d pref =
      process_edge_case (Ctx.mk V F I1 a1 c1 o1) q s d pref :=
    fun s d pref => process_edge_case_congr V F I1 I2 a1 a2 c1 c2 o1 o2 q s d pref
      (hallE s d) (hlen1 s d) (hlen2 s d) (hseq s d)
  have hvert : ∀ s pref, process_vertex_case (Ctx.mk V F I2 a2 c2 o2) q s pref =
      process_vertex_case (Ctx.mk V F I1 a1 c1 o1) q s pref :=
    fun s pref => process_vertex_case_congr V F I1 I2 a1 a2 c1 c2 o1 o2 q s pref
      (hallV s) (fun d => hedge s d pref)
  simp only [resolve, Ctx.orig]
  rw [hcpt, hco]
  rcases hdet : determine_element_type V F (c1 q).1 (I1.getD (c1 q).2 0) with ⟨et, ei⟩
  cases et with
  | VERTEX => exact hvert _ _
  | EDGE => exact hedge _ _ _
  | FACE =>
    unfold process_face_case
    dsimp only
    exact hedge _ _ _

/-- Witness for C9: the subset `[0, 1]` versus its reversal `[1, 0]` over two
facets sharing edge `(0, 1)`, with the tree oracle enumerating the same
geometric intersections (local ids compensating the renumbering), resolve to
the same result. -/
theorem C9_witness :
    resolve (Ctx.mk #[Pt.mk 0 0 0, Pt.mk 1 0 0, Pt.mk 0 1 0, Pt.mk 0 0 1]
        #[Facet.mk 0 1 2, Facet.mk 1 0 3] #[1, 0]
        (fun _ _ => [1, 0]) (fun _ => (Pt.mk 0 0 0, 1)) (fun _ _ sg _ => List.range sg.length))
      (Pt.mk 3 3 3) =
    resolve (Ctx.mk #[Pt.mk 0 0 0, Pt.mk 1 0 0, Pt.mk 0 1 0, Pt.mk 0 0 1]
        #[Facet.mk 0 1 2, Facet.mk 1 0 3] #[0, 1]
        (fun _ _ => [0, 1]) (fun _ => (Pt.mk 0 0 0, 0)) (fun _ _ sg _ => List.range sg.length))
      (Pt.mk 3 3 3) :=
  C9_subset_permutation
    #[Pt.mk 0 0 0, Pt.mk 1 0 0, Pt.mk 0 1 0, Pt.mk 0 0 1]
    #[Facet.mk 0 1 2, Facet.mk 1 0 3] #[0, 1] #[1, 0]
    (fun _ _ => [0, 1]) (fun _ _ => [1, 0])
    (fun _ => (Pt.mk 0 0 0, 0)) (fun _ => (Pt.mk 0 0 0, 1))
    (fun _ _ sg _ => List.range sg.length) (fun _ _ sg _ => List.range sg.length)
    (Pt.mk 3 3 3)
    (by decide) rfl rfl
    (fun s d => List.Perm.refl _) (fun s => List.Perm.refl _)
    (fun s d sg => List.length_range _) (fun s d sg => List.length_range _)
    (fun s d sg1 sg2 h1 h2 => by
      have h1' : signedIndices #[Facet.mk 0 1 2, Facet.mk 1 0 3] s d
          (edgeIdxs (Ctx.mk #[Pt.mk 0 0 0, Pt.mk 1 0 0, Pt.mk 0 1 0, Pt.mk 0 0 1]
            #[Facet.mk 0 1 2, Facet.mk 1 0 3] #[1, 0]
            (fun _ _ => [1, 0]) (fun _ => (Pt.mk 0 0 0, 1))
            (fun _ _ sg _ => List.range sg.length)) (Pt.mk 3 3 3) s d) = Except.ok sg1 := h1
      rw [h1'] at h2
      injection h2 with h3
      rw [h3])
